import Mathlib

/-!
Verification of the Supply/Demand Zone Pattern Matcher
(`botrading/pattern_matchers/supply_demand_pattern_matcher.py`).

Candles are OHLC records over ℚ.  The pandas/scipy/talib operations the
matcher relies on are modelled by explicit list functions:

* `scipy.signal.argrelextrema` with its default boundary mode `clip`
  (out-of-range neighbour indices are clipped to the array ends);
* pandas `Series.shift(1)` introduces a missing value in front, and a
  comparison against a missing value is `False`;
* `talib.CDLDOJI` flags a candle with value 100 when its real body is at
  most one tenth of the average high-low range of the ten preceding
  candles, and outputs 0 for the first ten candles (its lookback);
* positional `.iloc[i]` access raises `IndexError` when `i ≥ len`,
  modelled in `Except Unit`.
-/

inductive SupplyDemandZoneType where
  | SUPPLY_TYPE
  | DEMAND_TYPE
deriving DecidableEq

structure Candle where
  open_ : ℚ
  high : ℚ
  low : ℚ
  close : ℚ
deriving DecidableEq, Inhabited

structure SupplyDemandZone where
  zone_type : SupplyDemandZoneType
  start_index : Nat
  end_index : Nat
  distal_level : ℚ
  proxima_level : ℚ
  is_continuation_zone : Bool
deriving DecidableEq

/-- `df.iloc[i]` for a nonnegative position: out of range raises in
pandas, modelled as `Except.error`. -/
def iloc (df : List Candle) (i : Nat) : Except Unit Candle :=
  match df.get? i with
  | some c => Except.ok c
  | none => Except.error ()

/-- Total row access used where the call sites guarantee the index is in
range (indices produced by `argrelextrema` are all below the length). -/
def candleAt (df : List Candle) (i : Nat) : Candle :=
  (df.get? i).getD default

/-- `numpy.ndarray.take` with mode `clip` on a rational array. -/
def clipGet (xs : List ℚ) (j : Int) : ℚ :=
  (xs.get? (max 0 (min j ((xs.length : Int) - 1))).toNat).getD 0

/-- `scipy.signal.argrelextrema(xs, np.less, order)` with the default
`clip` boundary mode: index `i` qualifies when `xs[i]` is strictly below
the boundary-clipped neighbours at distances `1..order` on both sides. -/
def argrelextrema_less (xs : List ℚ) (order : Nat) : List Nat :=
  (List.range xs.length).filter fun i =>
    (List.range order).all fun s =>
      decide (clipGet xs i < clipGet xs ((i : Int) + ((s : Int) + 1))) &&
      decide (clipGet xs i < clipGet xs ((i : Int) - ((s : Int) + 1)))

/-- `scipy.signal.argrelextrema(xs, np.greater, order)`, `clip` mode. -/
def argrelextrema_greater (xs : List ℚ) (order : Nat) : List Nat :=
  (List.range xs.length).filter fun i =>
    (List.range order).all fun s =>
      decide (clipGet xs ((i : Int) + ((s : Int) + 1)) < clipGet xs i) &&
      decide (clipGet xs ((i : Int) - ((s : Int) + 1)) < clipGet xs i)

/-- `find_local_extrema`: local minima of the lows and local maxima of the
highs.  scipy raises `ValueError` when the order is below 1. -/
def find_local_extrema (df : List Candle) (extrema_window : Nat) :
    Except Unit (List Nat × List Nat) :=
  if extrema_window < 1 then Except.error ()
  else Except.ok
    (argrelextrema_less (df.map Candle.low) extrema_window,
     argrelextrema_greater (df.map Candle.high) extrema_window)

/-- `has_several_long_tailed_candlesticks` (present in the source but its
only call site is commented out). -/
def has_several_long_tailed_candlesticks (base_candles : List Candle) : Bool :=
  decide (1 < base_candles.countP fun c =>
    decide (c.high - c.low > (5 / 2) * |c.open_ - c.close|))

/-- Element-wise `series > series.shift(1)`: the first entry compares
against the shifted-in missing value and is therefore `False`. -/
def gt_shifted_series (xs : List ℚ) : List Bool :=
  match xs with
  | [] => []
  | x :: rest => false :: List.zipWith (fun prev cur => decide (prev < cur)) (x :: rest) rest

/-- Element-wise `series < series.shift(1)`, first entry `False`. -/
def lt_shifted_series (xs : List ℚ) : List Bool :=
  match xs with
  | [] => []
  | x :: rest => false :: List.zipWith (fun prev cur => decide (cur < prev)) (x :: rest) rest

/-- `is_staircase_pattern`: `.all()` of the shifted close comparison. -/
def is_staircase_pattern (base_candles : List Candle)
    (zone_type : SupplyDemandZoneType) : Bool :=
  match zone_type with
  | .DEMAND_TYPE => (gt_shifted_series (base_candles.map Candle.close)).all id
  | .SUPPLY_TYPE => (lt_shifted_series (base_candles.map Candle.close)).all id

/-- The real body `|close - open|` of a candle. -/
def realBody (c : Candle) : ℚ := |c.close - c.open_|

/-- The full `high - low` extent of a candle. -/
def highLowRange (c : Candle) : ℚ := c.high - c.low

/-- `talib.CDLDOJI`: candle `i` is flagged with 100 when its real body is
at most `0.1` times the average high-low range of candles `i-10 .. i-1`;
the first ten output entries are 0 (the pattern's lookback). -/
def CDLDOJI (candles : List Candle) : List ℚ :=
  (List.range candles.length).map fun i =>
    if i < 10 then 0
    else if realBody (candleAt candles i) ≤
        (1 / 10) * ((((List.range 10).map fun k =>
          highLowRange (candleAt candles (i - 10 + k))).sum) / 10) then 100
    else 0

/-- `has_doji_pattern`: the summed CDLDOJI output compared against 1. -/
def has_doji_pattern (base_candles : List Candle) : Bool :=
  decide ((CDLDOJI base_candles).sum > 1)

/-- `is_low_probability_trading_zone`: staircase or doji disqualifies. -/
def is_low_probability_trading_zone (base_candles : List Candle)
    (zone_type : SupplyDemandZoneType) : Bool :=
  is_staircase_pattern base_candles zone_type || has_doji_pattern base_candles

/-- The loop body of `has_several_momentum_candles` over the candles after
the base candle: the momentum count is incremented before the break
condition is tested, so the candle that triggers the break still counts
when its body exceeds half its range. -/
def momentumScan (baseClose : ℚ) (zone_type : SupplyDemandZoneType) :
    List Candle → Nat
  | [] => 0
  | c :: rest =>
    let inc : Nat := if |c.close - c.open_| > (1 / 2) * (c.high - c.low) then 1 else 0
    if (zone_type = .DEMAND_TYPE ∧ c.close < baseClose) ∨
        (zone_type = .SUPPLY_TYPE ∧ baseClose < c.close) then inc
    else inc + momentumScan baseClose zone_type rest

/-- `has_several_momentum_candles`: scan `start_index + 1 ..` and compare
the momentum count against the threshold.  All call sites pass a
`start_index` below the length. -/
def has_several_momentum_candles (df : List Candle) (start_index : Nat)
    (zone_type : SupplyDemandZoneType) (min_momentum_candles : Nat) : Bool :=
  decide (min_momentum_candles ≤
    momentumScan (candleAt df start_index).close zone_type (df.drop (start_index + 1)))

/-- `price_violates_distal_line`: any later candle trading through the
distal boundary (`df.iloc[end_index:]` is an empty slice when the index is
past the end, never an error). -/
def price_violates_distal_line (df : List Candle) (end_index : Nat)
    (distal_level : ℚ) (zone_type : SupplyDemandZoneType) : Bool :=
  match zone_type with
  | .DEMAND_TYPE => (df.drop end_index).any fun c => decide (c.low < distal_level)
  | .SUPPLY_TYPE => (df.drop end_index).any fun c => decide (distal_level < c.high)

/-- The body of the `find_demand_zones` loop for one local minimum:
`Except.error` models the `IndexError` of `close.iloc[min_index +
extrema_window]` when that position is out of range, `none` a `continue`,
and `some` an appended zone. -/
def demand_zone_for_index (df : List Candle) (min_base_rally_ratio : ℚ)
    (extrema_window min_momentum_candles : Nat) (min_index : Nat) :
    Except Unit (Option SupplyDemandZone) :=
  if (min_index : Int) < (extrema_window : Int) ∨
      (min_index : Int) > (df.length : Int) - (extrema_window : Int) then
    Except.ok none
  else
    match iloc df min_index with
    | Except.error e => Except.error e
    | Except.ok base_candle =>
      match iloc df (min_index + extrema_window) with
      | Except.error e => Except.error e
      | Except.ok rally_candle =>
        let base_length := base_candle.close - base_candle.low
        let rally_length := rally_candle.close - base_candle.close
        if rally_length > base_length * min_base_rally_ratio then
          let base_candles := (df.drop min_index).take (extrema_window + 1)
          let distal_level := base_candle.low
          let proxima_level := max base_candle.open_ base_candle.close
          if is_low_probability_trading_zone base_candles .DEMAND_TYPE then
            Except.ok none
          else if !has_several_momentum_candles df min_index .DEMAND_TYPE
              min_momentum_candles then
            Except.ok none
          else if price_violates_distal_line df (min_index + extrema_window)
              distal_level .DEMAND_TYPE then
            Except.ok none
          else
            Except.ok (some
              { zone_type := .DEMAND_TYPE
                start_index := min_index
                end_index := min_index + extrema_window
                distal_level := distal_level
                proxima_level := proxima_level
                is_continuation_zone := false })
        else
          Except.ok none

/-- The body of the `find_supply_zones` loop for one local maximum.  The
backward-looking accesses are guarded, so only the shape is fallible. -/
def supply_zone_for_index (df : List Candle) (min_base_rally_ratio : ℚ)
    (extrema_window min_momentum_candles : Nat) (max_index : Nat) :
    Except Unit (Option SupplyDemandZone) :=
  if (max_index : Int) < (extrema_window : Int) ∨
      (max_index : Int) > (df.length : Int) - (extrema_window : Int) then
    Except.ok none
  else
    match iloc df max_index with
    | Except.error e => Except.error e
    | Except.ok base_candle =>
      match iloc df (max_index - extrema_window) with
      | Except.error e => Except.error e
      | Except.ok prev_candle =>
        let base_length := base_candle.high - base_candle.close
        let rally_length := base_candle.close - prev_candle.close
        if rally_length > base_length * min_base_rally_ratio then
          let base_candles := (df.drop max_index).take (extrema_window + 1)
          let distal_level := base_candle.high
          let proxima_level := min base_candle.open_ base_candle.close
          if is_low_probability_trading_zone base_candles .SUPPLY_TYPE then
            Except.ok none
          else if !has_several_momentum_candles df max_index .SUPPLY_TYPE
              min_momentum_candles then
            Except.ok none
          else if price_violates_distal_line df (max_index + extrema_window)
              distal_level .SUPPLY_TYPE then
            Except.ok none
          else
            Except.ok (some
              { zone_type := .SUPPLY_TYPE
                start_index := max_index
                end_index := max_index + extrema_window
                distal_level := distal_level
                proxima_level := proxima_level
                is_continuation_zone := false })
        else
          Except.ok none

/-- The accumulation skeleton shared by the two extremum-anchored zone
loops: process indices in order, propagate a raised error, and append the
produced zones. -/
def collectZones (step : Nat → Except Unit (Option SupplyDemandZone)) :
    List Nat → Except Unit (List SupplyDemandZone)
  | [] => Except.ok []
  | m :: rest =>
    match step m with
    | Except.error e => Except.error e
    | Except.ok none => collectZones step rest
    | Except.ok (some z) =>
      match collectZones step rest with
      | Except.error e => Except.error e
      | Except.ok zs => Except.ok (z :: zs)

/-- `find_demand_zones`. -/
def find_demand_zones (df : List Candle) (local_minima : List Nat)
    (min_base_rally_ratio : ℚ) (extrema_window min_momentum_candles : Nat) :
    Except Unit (List SupplyDemandZone) :=
  collectZones
    (demand_zone_for_index df min_base_rally_ratio extrema_window min_momentum_candles)
    local_minima

/-- `find_supply_zones`. -/
def find_supply_zones (df : List Candle) (local_maxima : List Nat)
    (min_base_rally_ratio : ℚ) (extrema_window min_momentum_candles : Nat) :
    Except Unit (List SupplyDemandZone) :=
  collectZones
    (supply_zone_for_index df min_base_rally_ratio extrema_window min_momentum_candles)
    local_maxima

/-- Body of the inner scan of `find_demand_continuation_zones` for one
interior candle `i` of the leg `max_index .. min_index`; indices handed in
by the caller all lie below the length. -/
def demand_continuation_zone_at (df : List Candle) (min_base_rally_ratio : ℚ)
    (max_index min_index i : Nat) : Option SupplyDemandZone :=
  if (candleAt df i).close > (candleAt df (i - 1)).close ∧
      (candleAt df i).close > (candleAt df i).open_ then
    let base_length := (candleAt df i).high - (candleAt df i).low
    let rally_length_down_before := |(candleAt df i).close - (candleAt df max_index).close|
    let rally_length_up_after := |(candleAt df min_index).close - (candleAt df i).close|
    if rally_length_down_before > base_length * min_base_rally_ratio ∧
        rally_length_up_after > base_length * min_base_rally_ratio then
      let distal_level := (candleAt df i).low
      let proxima_level := max (candleAt df i).open_ (candleAt df i).close
      if price_violates_distal_line df i distal_level .DEMAND_TYPE then none
      else some
        { zone_type := .DEMAND_TYPE
          start_index := i
          end_index := i
          distal_level := distal_level
          proxima_level := proxima_level
          is_continuation_zone := true }
    else none
  else none

/-- `find_demand_continuation_zones`: for each local minimum the code
takes the last entry of the reversed-then-filtered maxima list, which is
the earliest maximum before the minimum, and scans the candles strictly
between the two.  The `min_momentum_candles` parameter is accepted but
unused (its check is commented out in the source). -/
def find_demand_continuation_zones (df : List Candle)
    (local_minima local_maxima : List Nat) (min_base_rally_ratio : ℚ)
    (min_momentum_candles : Nat) : List SupplyDemandZone :=
  local_minima.flatMap fun min_index =>
    match ((local_maxima.reverse).filter fun idx => decide (idx < min_index)).getLast? with
    | none => []
    | some max_index =>
      (List.range' (max_index + 1) (min_index - (max_index + 1))).filterMap
        (demand_continuation_zone_at df min_base_rally_ratio max_index min_index)

/-- Body of the inner scan of `find_supply_continuation_zones`. -/
def supply_continuation_zone_at (df : List Candle) (min_base_rally_ratio : ℚ)
    (max_index min_index i : Nat) : Option SupplyDemandZone :=
  if (candleAt df i).close < (candleAt df (i - 1)).close ∧
      (candleAt df i).close < (candleAt df i).open_ then
    let base_length := (candleAt df i).high - (candleAt df i).low
    let rally_length_up_before := |(candleAt df max_index).close - (candleAt df i).close|
    let rally_length_down_after := |(candleAt df i).close - (candleAt df min_index).close|
    if rally_length_up_before > base_length * min_base_rally_ratio ∧
        rally_length_down_after > base_length * min_base_rally_ratio then
      let distal_level := (candleAt df i).high
      let proxima_level := min (candleAt df i).open_ (candleAt df i).close
      if price_violates_distal_line df i distal_level .SUPPLY_TYPE then none
      else some
        { zone_type := .SUPPLY_TYPE
          start_index := i
          end_index := i
          distal_level := distal_level
          proxima_level := proxima_level
          is_continuation_zone := true }
    else none
  else none

/-- `find_supply_continuation_zones`: the reversed-then-filtered minima
list ends with the nearest minimum after the maximum.  The momentum
parameter is again unused. -/
def find_supply_continuation_zones (df : List Candle)
    (local_minima local_maxima : List Nat) (min_base_rally_ratio : ℚ)
    (min_momentum_candles : Nat) : List SupplyDemandZone :=
  local_maxima.flatMap fun max_index =>
    match ((local_minima.reverse).filter fun idx => decide (max_index < idx)).getLast? with
    | none => []
    | some min_index =>
      (List.range' (max_index + 1) (min_index - (max_index + 1))).filterMap
        (supply_continuation_zone_at df min_base_rally_ratio max_index min_index)

/-- `SupplyDemandPatternMatcher.detect_supply_demand_zones`: one pure
detection pass, `(supply_zones, demand_zones)`. -/
def detect_supply_demand_zones (df : List Candle) (min_base_rally_ratio : ℚ)
    (extrema_window min_momentum_candles : Nat)
    (detect_continuation_patterns : Bool) :
    Except Unit (List SupplyDemandZone × List SupplyDemandZone) :=
  match find_local_extrema df extrema_window with
  | Except.error e => Except.error e
  | Except.ok (local_minima, local_maxima) =>
    match find_supply_zones df local_maxima min_base_rally_ratio extrema_window
        min_momentum_candles with
    | Except.error e => Except.error e
    | Except.ok supply_zones =>
      match find_demand_zones df local_minima min_base_rally_ratio extrema_window
          min_momentum_candles with
      | Except.error e => Except.error e
      | Except.ok demand_zones =>
        if detect_continuation_patterns then
          Except.ok
            (supply_zones ++ find_supply_continuation_zones df local_minima
              local_maxima min_base_rally_ratio min_momentum_candles,
             demand_zones ++ find_demand_continuation_zones df local_minima
              local_maxima min_base_rally_ratio min_momentum_candles)
        else
          Except.ok (supply_zones, demand_zones)

/-! ## Basic facts about the access helpers -/

theorem iloc_ok_candleAt {df : List Candle} {i : Nat} {c : Candle}
    (h : iloc df i = Except.ok c) : candleAt df i = c := by
  unfold iloc at h
  unfold candleAt
  cases hg : df.get? i <;> rw [hg] at h <;> simp_all

theorem iloc_ok_lt {df : List Candle} {i : Nat} {c : Candle}
    (h : iloc df i = Except.ok c) : i < df.length := by
  unfold iloc at h
  cases hg : df.get? i <;> rw [hg] at h <;> simp_all
  exact (List.getElem?_eq_some.mp hg).1

theorem iloc_error_le {df : List Candle} {i : Nat} {e : Unit}
    (h : iloc df i = Except.error e) : df.length ≤ i := by
  unfold iloc at h
  cases hg : df.get? i <;> rw [hg] at h
  · simp only [List.get?_eq_getElem?] at hg
    exact List.getElem?_eq_none_iff.mp hg
  · simp at h

theorem iloc_ok_mem {df : List Candle} {i : Nat} {c : Candle}
    (h : iloc df i = Except.ok c) : c ∈ df := by
  unfold iloc at h
  cases hg : df.get? i <;> rw [hg] at h <;> simp_all
  exact List.getElem?_mem hg

theorem candleAt_mem_or_default (df : List Candle) (i : Nat) :
    candleAt df i ∈ df ∨ candleAt df i = default := by
  unfold candleAt
  cases hg : df.get? i with
  | none => exact Or.inr rfl
  | some c => exact Or.inl (by simp only [List.get?_eq_getElem?] at hg; exact List.getElem?_mem hg)

theorem mem_argrelextrema_less_lt {xs : List ℚ} {order i : Nat}
    (h : i ∈ argrelextrema_less xs order) : i < xs.length := by
  unfold argrelextrema_less at h
  exact List.mem_range.mp (List.mem_filter.mp h).1

theorem mem_argrelextrema_greater_lt {xs : List ℚ} {order i : Nat}
    (h : i ∈ argrelextrema_greater xs order) : i < xs.length := by
  unfold argrelextrema_greater at h
  exact List.mem_range.mp (List.mem_filter.mp h).1

/-! ## Characterisation of the extremum-anchored builders -/

/-- The index guard of the builder loops (the negation of the `continue`
condition; note that `min_index = len - extrema_window` passes it). -/
def extremumGuardPass (len w m : Nat) : Prop :=
  ¬ ((m : Int) < (w : Int) ∨ (m : Int) > (len : Int) - (w : Int))

instance (len w m : Nat) : Decidable (extremumGuardPass len w m) := by
  unfold extremumGuardPass; infer_instance

/-- All filter conditions a demand candidate at `m` passes, phrased over
total accesses (equal to the `iloc` reads whenever those succeed). -/
def demandAccept (df : List Candle) (min_base_rally_ratio : ℚ)
    (extrema_window min_momentum_candles m : Nat) : Prop :=
  (candleAt df (m + extrema_window)).close - (candleAt df m).close >
      ((candleAt df m).close - (candleAt df m).low) * min_base_rally_ratio ∧
  is_low_probability_trading_zone ((df.drop m).take (extrema_window + 1))
      .DEMAND_TYPE = false ∧
  has_several_momentum_candles df m .DEMAND_TYPE min_momentum_candles = true ∧
  price_violates_distal_line df (m + extrema_window) (candleAt df m).low
      .DEMAND_TYPE = false

instance (df : List Candle) (r : ℚ) (w mm m : Nat) :
    Decidable (demandAccept df r w mm m) := by
  unfold demandAccept; infer_instance

/-- The demand zone built at base index `m`. -/
def mkDemandZone (df : List Candle) (extrema_window m : Nat) : SupplyDemandZone :=
  { zone_type := .DEMAND_TYPE
    start_index := m
    end_index := m + extrema_window
    distal_level := (candleAt df m).low
    proxima_level := max (candleAt df m).open_ (candleAt df m).close
    is_continuation_zone := false }

/-- All filter conditions a supply candidate at `x` passes. -/
def supplyAccept (df : List Candle) (min_base_rally_ratio : ℚ)
    (extrema_window min_momentum_candles x : Nat) : Prop :=
  (candleAt df x).close - (candleAt df (x - extrema_window)).close >
      ((candleAt df x).high - (candleAt df x).close) * min_base_rally_ratio ∧
  is_low_probability_trading_zone ((df.drop x).take (extrema_window + 1))
      .SUPPLY_TYPE = false ∧
  has_several_momentum_candles df x .SUPPLY_TYPE min_momentum_candles = true ∧
  price_violates_distal_line df (x + extrema_window) (candleAt df x).high
      .SUPPLY_TYPE = false

instance (df : List Candle) (r : ℚ) (w mm x : Nat) :
    Decidable (supplyAccept df r w mm x) := by
  unfold supplyAccept; infer_instance

/-- The supply zone built at base index `x`. -/
def mkSupplyZone (df : List Candle) (extrema_window x : Nat) : SupplyDemandZone :=
  { zone_type := .SUPPLY_TYPE
    start_index := x
    end_index := x + extrema_window
    distal_level := (candleAt df x).high
    proxima_level := min (candleAt df x).open_ (candleAt df x).close
    is_continuation_zone := false }

theorem demand_zone_for_index_eq_some {df : List Candle} {r : ℚ}
    {w mm m : Nat} {z : SupplyDemandZone} :
    demand_zone_for_index df r w mm m = Except.ok (some z) ↔
      extremumGuardPass df.length w m ∧ m + w < df.length ∧
        demandAccept df r w mm m ∧ z = mkDemandZone df w m := by
  unfold demand_zone_for_index extremumGuardPass demandAccept mkDemandZone
  split
  · next hskip =>
    constructor
    · intro h; exact absurd h (by simp)
    · rintro ⟨hpass, -⟩; exact absurd hskip hpass
  · next hskip =>
    cases h1 : iloc df m with
    | error e =>
      have hle := iloc_error_le h1
      simp only [h1]
      constructor
      · intro h; exact absurd h (by simp)
      · rintro ⟨-, hlt, -⟩; omega
    | ok bc =>
      cases h2 : iloc df (m + w) with
      | error e =>
        have hle := iloc_error_le h2
        simp only [h1, h2]
        constructor
        · intro h; exact absurd h (by simp)
        · rintro ⟨-, hlt, -⟩; omega
      | ok rc =>
        have hbc := iloc_ok_candleAt h1
        have hrc := iloc_ok_candleAt h2
        have hlt := iloc_ok_lt h2
        simp only [h1, h2, hbc, hrc]
        constructor
        · intro h
          split_ifs at h with hratio hlow hmom hdist
          · exact absurd h (by simp)
          · exact absurd h (by simp)
          · exact absurd h (by simp)
          · simp only [Except.ok.injEq, Option.some.injEq] at h
            exact ⟨hskip, hlt, ⟨hratio, by simpa using hlow, by simpa using hmom,
              by simpa using hdist⟩, h.symm⟩
          · exact absurd h (by simp)
        · rintro ⟨-, -, ⟨hratio, hlow, hmom, hdist⟩, rfl⟩
          rw [if_pos hratio, if_neg (by simp [hlow]), if_neg (by simp [hmom]),
            if_neg (by simp [hdist])]

theorem supply_zone_for_index_eq_some {df : List Candle} {r : ℚ}
    {w mm x : Nat} {z : SupplyDemandZone} :
    supply_zone_for_index df r w mm x = Except.ok (some z) ↔
      extremumGuardPass df.length w x ∧ x < df.length ∧
        supplyAccept df r w mm x ∧ z = mkSupplyZone df w x := by
  unfold supply_zone_for_index extremumGuardPass supplyAccept mkSupplyZone
  split
  · next hskip =>
    constructor
    · intro h; exact absurd h (by simp)
    · rintro ⟨hpass, -⟩; exact absurd hskip hpass
  · next hskip =>
    cases h1 : iloc df x with
    | error e =>
      have hle := iloc_error_le h1
      simp only [h1]
      constructor
      · intro h; exact absurd h (by simp)
      · rintro ⟨-, hlt, -⟩; omega
    | ok bc =>
      cases h2 : iloc df (x - w) with
      | error e =>
        have hle := iloc_error_le h2
        simp only [h1, h2]
        constructor
        · intro h; exact absurd h (by simp)
        · rintro ⟨-, hlt2, -⟩; omega
      | ok pc =>
        have hbc := iloc_ok_candleAt h1
        have hpc := iloc_ok_candleAt h2
        have hlt := iloc_ok_lt h1
        simp only [h1, h2, hbc, hpc]
        constructor
        · intro h
          split_ifs at h with hratio hlow hmom hdist
          · exact absurd h (by simp)
          · exact absurd h (by simp)
          · exact absurd h (by simp)
          · simp only [Except.ok.injEq, Option.some.injEq] at h
            exact ⟨hskip, hlt, ⟨hratio, by simpa using hlow, by simpa using hmom,
              by simpa using hdist⟩, h.symm⟩
          · exact absurd h (by simp)
        · rintro ⟨-, -, ⟨hratio, hlow, hmom, hdist⟩, rfl⟩
          rw [if_pos hratio, if_neg (by simp [hlow]), if_neg (by simp [hmom]),
            if_neg (by simp [hdist])]

theorem collectZones_char (step : Nat → Except Unit (Option SupplyDemandZone)) :
    ∀ (idxs : List Nat) (zs : List SupplyDemandZone),
      collectZones step idxs = Except.ok zs →
      ∀ z, z ∈ zs ↔ ∃ m ∈ idxs, step m = Except.ok (some z)
  | [], zs, h, z => by
    simp only [collectZones, Except.ok.injEq] at h
    subst h
    simp
  | m :: rest, zs, h, z => by
    rw [collectZones] at h
    split at h
    · exact absurd h (by simp)
    · next heq =>
      have ih := collectZones_char step rest zs h z
      rw [ih]
      constructor
      · rintro ⟨m2, hm2, hs⟩
        exact ⟨m2, List.mem_cons_of_mem _ hm2, hs⟩
      · rintro ⟨m2, hm2, hs⟩
        rcases List.mem_cons.mp hm2 with rfl | hm2
        · rw [heq] at hs
          exact absurd hs (by simp)
        · exact ⟨m2, hm2, hs⟩
    · next z0 heq =>
      split at h
      · exact absurd h (by simp)
      · next zs0 heq2 =>
        simp only [Except.ok.injEq] at h
        subst h
        have ih := collectZones_char step rest zs0 heq2 z
        simp only [List.mem_cons]
        constructor
        · rintro (rfl | hmem)
          · exact ⟨m, Or.inl rfl, heq⟩
          · rcases ih.mp hmem with ⟨m2, hm2, hs⟩
            exact ⟨m2, Or.inr hm2, hs⟩
        · rintro ⟨m2, rfl | hm2, hs⟩
          · rw [heq] at hs
            simp only [Except.ok.injEq, Option.some.injEq] at hs
            exact Or.inl hs.symm
          · exact Or.inr (ih.mpr ⟨m2, hm2, hs⟩)

theorem collectZones_all_skip (step : Nat → Except Unit (Option SupplyDemandZone)) :
    ∀ idxs : List Nat, (∀ m ∈ idxs, step m = Except.ok none) →
      collectZones step idxs = Except.ok []
  | [], _ => by simp [collectZones]
  | m :: rest, h => by
    rw [collectZones, h m (List.mem_cons_self m rest),
      collectZones_all_skip step rest fun m2 hm2 => h m2 (List.mem_cons_of_mem _ hm2)]

/-! ## Characterisation of the continuation detectors -/

/-- The conditions deciding inclusion of a demand continuation candidate:
the counter-trend test, the two surrounding-rally ratio tests and the
distal-violation filter (and nothing else). -/
def demandContAccept (df : List Candle) (min_base_rally_ratio : ℚ)
    (max_index min_index i : Nat) : Prop :=
  (candleAt df i).close > (candleAt df (i - 1)).close ∧
  (candleAt df i).close > (candleAt df i).open_ ∧
  |(candleAt df i).close - (candleAt df max_index).close| >
    ((candleAt df i).high - (candleAt df i).low) * min_base_rally_ratio ∧
  |(candleAt df min_index).close - (candleAt df i).close| >
    ((candleAt df i).high - (candleAt df i).low) * min_base_rally_ratio ∧
  price_violates_distal_line df i (candleAt df i).low .DEMAND_TYPE = false

instance (df : List Candle) (r : ℚ) (mx mi i : Nat) :
    Decidable (demandContAccept df r mx mi i) := by
  unfold demandContAccept; infer_instance

/-- The single-candle demand continuation zone at `i`. -/
def mkDemandContZone (df : List Candle) (i : Nat) : SupplyDemandZone :=
  { zone_type := .DEMAND_TYPE
    start_index := i
    end_index := i
    distal_level := (candleAt df i).low
    proxima_level := max (candleAt df i).open_ (candleAt df i).close
    is_continuation_zone := true }

/-- Symmetric conditions for a supply continuation candidate. -/
def supplyContAccept (df : List Candle) (min_base_rally_ratio : ℚ)
    (max_index min_index i : Nat) : Prop :=
  (candleAt df i).close < (candleAt df (i - 1)).close ∧
  (candleAt df i).close < (candleAt df i).open_ ∧
  |(candleAt df max_index).close - (candleAt df i).close| >
    ((candleAt df i).high - (candleAt df i).low) * min_base_rally_ratio ∧
  |(candleAt df i).close - (candleAt df min_index).close| >
    ((candleAt df i).high - (candleAt df i).low) * min_base_rally_ratio ∧
  price_violates_distal_line df i (candleAt df i).high .SUPPLY_TYPE = false

instance (df : List Candle) (r : ℚ) (mx mi i : Nat) :
    Decidable (supplyContAccept df r mx mi i) := by
  unfold supplyContAccept; infer_instance

/-- The single-candle supply continuation zone at `i`. -/
def mkSupplyContZone (df : List Candle) (i : Nat) : SupplyDemandZone :=
  { zone_type := .SUPPLY_TYPE
    start_index := i
    end_index := i
    distal_level := (candleAt df i).high
    proxima_level := min (candleAt df i).open_ (candleAt df i).close
    is_continuation_zone := true }

theorem demand_continuation_zone_at_eq_some {df : List Candle} {r : ℚ}
    {mx mi i : Nat} {z : SupplyDemandZone} :
    demand_continuation_zone_at df r mx mi i = some z ↔
      demandContAccept df r mx mi i ∧ z = mkDemandContZone df i := by
  unfold demand_continuation_zone_at demandContAccept mkDemandContZone
  dsimp only
  split_ifs with h1 h2 h3
  · constructor
    · intro h; exact absurd h (by simp)
    · rintro ⟨⟨-, -, -, -, hd⟩, -⟩
      rw [h3] at hd
      exact Bool.noConfusion hd
  · constructor
    · intro h
      simp only [Option.some.injEq] at h
      exact ⟨⟨h1.1, h1.2, h2.1, h2.2, by simpa using h3⟩, h.symm⟩
    · rintro ⟨-, rfl⟩; rfl
  · constructor
    · intro h; exact absurd h (by simp)
    · rintro ⟨⟨-, -, hr1, hr2, -⟩, -⟩
      exact absurd ⟨hr1, hr2⟩ h2
  · constructor
    · intro h; exact absurd h (by simp)
    · rintro ⟨⟨hc1, hc2, -⟩, -⟩
      exact absurd ⟨hc1, hc2⟩ h1

theorem supply_continuation_zone_at_eq_some {df : List Candle} {r : ℚ}
    {mx mi i : Nat} {z : SupplyDemandZone} :
    supply_continuation_zone_at df r mx mi i = some z ↔
      supplyContAccept df r mx mi i ∧ z = mkSupplyContZone df i := by
  unfold supply_continuation_zone_at supplyContAccept mkSupplyContZone
  dsimp only
  split_ifs with h1 h2 h3
  · constructor
    · intro h; exact absurd h (by simp)
    · rintro ⟨⟨-, -, -, -, hd⟩, -⟩
      rw [h3] at hd
      exact Bool.noConfusion hd
  · constructor
    · intro h
      simp only [Option.some.injEq] at h
      exact ⟨⟨h1.1, h1.2, h2.1, h2.2, by simpa using h3⟩, h.symm⟩
    · rintro ⟨-, rfl⟩; rfl
  · constructor
    · intro h; exact absurd h (by simp)
    · rintro ⟨⟨-, -, hr1, hr2, -⟩, -⟩
      exact absurd ⟨hr1, hr2⟩ h2
  · constructor
    · intro h; exact absurd h (by simp)
    · rintro ⟨⟨hc1, hc2, -⟩, -⟩
      exact absurd ⟨hc1, hc2⟩ h1

theorem mem_find_demand_continuation_zones {df : List Candle} {r : ℚ}
    {mm : Nat} {mins maxs : List Nat} {z : SupplyDemandZone} :
    z ∈ find_demand_continuation_zones df mins maxs r mm ↔
      ∃ mi ∈ mins, ∃ mx,
        ((maxs.reverse.filter fun idx => decide (idx < mi)).getLast? = some mx) ∧
        ∃ i ∈ List.range' (mx + 1) (mi - (mx + 1)),
          demandContAccept df r mx mi i ∧ z = mkDemandContZone df i := by
  unfold find_demand_continuation_zones
  rw [List.mem_flatMap]
  refine exists_congr fun mi => and_congr_right fun hmi => ?_
  cases hsel : (maxs.reverse.filter fun idx => decide (idx < mi)).getLast? with
  | none => simp [hsel]
  | some mx0 =>
    simp only [hsel, List.mem_filterMap, Option.some.injEq,
      demand_continuation_zone_at_eq_some]
    constructor
    · rintro ⟨i, hi, hacc, hz⟩
      exact ⟨mx0, rfl, i, hi, hacc, hz⟩
    · rintro ⟨mx, hmx, i, hi, hacc, hz⟩
      cases hmx
      exact ⟨i, hi, hacc, hz⟩

theorem mem_find_supply_continuation_zones {df : List Candle} {r : ℚ}
    {mm : Nat} {mins maxs : List Nat} {z : SupplyDemandZone} :
    z ∈ find_supply_continuation_zones df mins maxs r mm ↔
      ∃ mx ∈ maxs, ∃ mi,
        ((mins.reverse.filter fun idx => decide (mx < idx)).getLast? = some mi) ∧
        ∃ i ∈ List.range' (mx + 1) (mi - (mx + 1)),
          supplyContAccept df r mx mi i ∧ z = mkSupplyContZone df i := by
  unfold find_supply_continuation_zones
  rw [List.mem_flatMap]
  refine exists_congr fun mx => and_congr_right fun hmx => ?_
  cases hsel : (mins.reverse.filter fun idx => decide (mx < idx)).getLast? with
  | none => simp [hsel]
  | some mi0 =>
    simp only [hsel, List.mem_filterMap, Option.some.injEq,
      supply_continuation_zone_at_eq_some]
    constructor
    · rintro ⟨i, hi, hacc, hz⟩
      exact ⟨mi0, rfl, i, hi, hacc, hz⟩
    · rintro ⟨mi, hmi, i, hi, hacc, hz⟩
      cases hmi
      exact ⟨i, hi, hacc, hz⟩

/-! ## Spec-side restatements used for refinement claims -/

/-- Spec-side inclusion test for a demand continuation candidate: a single
flat conjunction of the counter-trend test, the two surrounding-rally
tests and the distal filter. -/
def demand_continuation_spec_at (df : List Candle) (r : ℚ)
    (mx mi i : Nat) : Option SupplyDemandZone :=
  if demandContAccept df r mx mi i then some (mkDemandContZone df i) else none

/-- Spec-side list of demand continuation zones: no momentum, staircase or
doji check appears, and no momentum threshold is consulted. -/
def demandContinuationSpec (df : List Candle) (mins maxs : List Nat)
    (r : ℚ) : List SupplyDemandZone :=
  mins.flatMap fun mi =>
    match ((maxs.reverse).filter fun idx => decide (idx < mi)).getLast? with
    | none => []
    | some mx =>
      (List.range' (mx + 1) (mi - (mx + 1))).filterMap
        (demand_continuation_spec_at df r mx mi)

/-- Spec-side inclusion test for a supply continuation candidate. -/
def supply_continuation_spec_at (df : List Candle) (r : ℚ)
    (mx mi i : Nat) : Option SupplyDemandZone :=
  if supplyContAccept df r mx mi i then some (mkSupplyContZone df i) else none

/-- Spec-side list of supply continuation zones. -/
def supplyContinuationSpec (df : List Candle) (mins maxs : List Nat)
    (r : ℚ) : List SupplyDemandZone :=
  maxs.flatMap fun mx =>
    match ((mins.reverse).filter fun idx => decide (mx < idx)).getLast? with
    | none => []
    | some mi =>
      (List.range' (mx + 1) (mi - (mx + 1))).filterMap
        (supply_continuation_spec_at df r mx mi)

theorem demand_continuation_zone_at_eq_spec (df : List Candle) (r : ℚ)
    (mx mi i : Nat) :
    demand_continuation_zone_at df r mx mi i =
      demand_continuation_spec_at df r mx mi i := by
  unfold demand_continuation_spec_at
  by_cases hacc : demandContAccept df r mx mi i
  · rw [if_pos hacc]
    exact demand_continuation_zone_at_eq_some.mpr ⟨hacc, rfl⟩
  · rw [if_neg hacc]
    cases hc : demand_continuation_zone_at df r mx mi i with
    | none => rfl
    | some z => exact absurd (demand_continuation_zone_at_eq_some.mp hc).1 hacc

theorem supply_continuation_zone_at_eq_spec (df : List Candle) (r : ℚ)
    (mx mi i : Nat) :
    supply_continuation_zone_at df r mx mi i =
      supply_continuation_spec_at df r mx mi i := by
  unfold supply_continuation_spec_at
  by_cases hacc : supplyContAccept df r mx mi i
  · rw [if_pos hacc]
    exact supply_continuation_zone_at_eq_some.mpr ⟨hacc, rfl⟩
  · rw [if_neg hacc]
    cases hc : supply_continuation_zone_at df r mx mi i with
    | none => rfl
    | some z => exact absurd (supply_continuation_zone_at_eq_some.mp hc).1 hacc

theorem find_demand_continuation_zones_eq_spec (df : List Candle)
    (mins maxs : List Nat) (r : ℚ) (mm : Nat) :
    find_demand_continuation_zones df mins maxs r mm =
      demandContinuationSpec df mins maxs r := by
  unfold find_demand_continuation_zones demandContinuationSpec
  refine congrArg _ (funext fun mi => ?_)
  cases hsel : ((maxs.reverse).filter fun idx => decide (idx < mi)).getLast? with
  | none => simp [hsel]
  | some mx =>
    simp only [hsel]
    have hfun : demand_continuation_zone_at df r mx mi =
        demand_continuation_spec_at df r mx mi :=
      funext fun i => demand_continuation_zone_at_eq_spec df r mx mi i
    rw [hfun]

theorem find_supply_continuation_zones_eq_spec (df : List Candle)
    (mins maxs : List Nat) (r : ℚ) (mm : Nat) :
    find_supply_continuation_zones df mins maxs r mm =
      supplyContinuationSpec df mins maxs r := by
  unfold find_supply_continuation_zones supplyContinuationSpec
  refine congrArg _ (funext fun mx => ?_)
  cases hsel : ((mins.reverse).filter fun idx => decide (mx < idx)).getLast? with
  | none => simp [hsel]
  | some mi =>
    simp only [hsel]
    have hfun : supply_continuation_zone_at df r mx mi =
        supply_continuation_spec_at df r mx mi :=
      funext fun i => supply_continuation_zone_at_eq_spec df r mx mi i
    rw [hfun]

/-! ## Momentum scan: spec-side counts -/

/-- A "strong" candle: body above half the full range. -/
def strong_candle (c : Candle) : Bool :=
  decide (|c.close - c.open_| > (1 / 2) * (c.high - c.low))

/-- The break condition of the momentum scan. -/
def stop_candle (baseClose : ℚ) (zone_type : SupplyDemandZoneType)
    (c : Candle) : Bool :=
  decide ((zone_type = .DEMAND_TYPE ∧ c.close < baseClose) ∨
    (zone_type = .SUPPLY_TYPE ∧ baseClose < c.close))

/-- Claim-side count: strong candles strictly before the first candle
meeting the stop condition. -/
def momentum_count_before_stop (baseClose : ℚ)
    (zone_type : SupplyDemandZoneType) (cs : List Candle) : Nat :=
  (cs.takeWhile fun c => !stop_candle baseClose zone_type c).countP strong_candle

/-- The candles the loop actually examines: everything up to and including
the first candle meeting the stop condition. -/
def scanned_candles (baseClose : ℚ) (zone_type : SupplyDemandZoneType) :
    List Candle → List Candle
  | [] => []
  | c :: rest =>
    if stop_candle baseClose zone_type c then [c]
    else c :: scanned_candles baseClose zone_type rest

/-- Amended count: strong candles in the scanned prefix, the stopping
candle included. -/
def momentum_count_through_stop (baseClose : ℚ)
    (zone_type : SupplyDemandZoneType) (cs : List Candle) : Nat :=
  (scanned_candles baseClose zone_type cs).countP strong_candle

theorem momentumScan_eq_count_through_stop (baseClose : ℚ)
    (zone_type : SupplyDemandZoneType) :
    ∀ cs : List Candle, momentumScan baseClose zone_type cs =
      momentum_count_through_stop baseClose zone_type cs
  | [] => rfl
  | c :: rest => by
    have hinc : (if |c.close - c.open_| > (1 / 2) * (c.high - c.low) then (1 : Nat) else 0) =
        (if strong_candle c then 1 else 0) := by
      by_cases hs : |c.close - c.open_| > (1 / 2) * (c.high - c.low) <;>
        simp [strong_candle, hs]
    cases hstop : stop_candle baseClose zone_type c with
    | true =>
      have hprop : (zone_type = .DEMAND_TYPE ∧ c.close < baseClose) ∨
          (zone_type = .SUPPLY_TYPE ∧ baseClose < c.close) := by
        simpa [stop_candle] using hstop
      unfold momentumScan momentum_count_through_stop scanned_candles
      rw [if_pos hprop, if_pos hstop, hinc]
      simp [List.countP_cons]
    | false =>
      have hprop : ¬ ((zone_type = .DEMAND_TYPE ∧ c.close < baseClose) ∨
          (zone_type = .SUPPLY_TYPE ∧ baseClose < c.close)) := by
        simpa [stop_candle] using hstop
      unfold momentumScan momentum_count_through_stop scanned_candles
      rw [if_neg hprop,
        if_neg (show ¬(stop_candle baseClose zone_type c = true) from by simp [hstop]),
        hinc, momentumScan_eq_count_through_stop baseClose zone_type rest]
      unfold momentum_count_through_stop
      simp [List.countP_cons, Nat.add_comm]

/-! ## Well-formed candles -/

/-- Claim C9's well-formedness: `low ≤ min(open, close)` and
`max(open, close) ≤ high`. -/
def wfCandle (c : Candle) : Prop :=
  c.low ≤ min c.open_ c.close ∧ max c.open_ c.close ≤ c.high

/-- The weaker ordering used by the amended C6: `low ≤ close ≤ high`. -/
def orderedCandle (c : Candle) : Prop :=
  c.low ≤ c.close ∧ c.close ≤ c.high

instance (c : Candle) : Decidable (wfCandle c) := by
  unfold wfCandle; infer_instance

instance (c : Candle) : Decidable (orderedCandle c) := by
  unfold orderedCandle; infer_instance

theorem wfCandle_candleAt {df : List Candle} (h : ∀ c ∈ df, wfCandle c)
    (i : Nat) : wfCandle (candleAt df i) := by
  rcases candleAt_mem_or_default df i with hm | hd
  · exact h _ hm
  · rw [hd]
    decide

theorem orderedCandle_candleAt {df : List Candle}
    (h : ∀ c ∈ df, orderedCandle c) (i : Nat) :
    orderedCandle (candleAt df i) := by
  rcases candleAt_mem_or_default df i with hm | hd
  · exact h _ hm
  · rw [hd]
    decide

/-! ## Membership in the builders and decomposition of a detection pass -/

theorem find_demand_zones_mem {df : List Candle} {r : ℚ} {w mm : Nat}
    {mins : List Nat} {zs : List SupplyDemandZone}
    (h : find_demand_zones df mins r w mm = Except.ok zs) (z : SupplyDemandZone) :
    z ∈ zs ↔ ∃ m ∈ mins, extremumGuardPass df.length w m ∧ m + w < df.length ∧
      demandAccept df r w mm m ∧ z = mkDemandZone df w m := by
  unfold find_demand_zones at h
  rw [collectZones_char _ _ _ h z]
  exact exists_congr fun m => and_congr_right fun _ => demand_zone_for_index_eq_some

theorem find_supply_zones_mem {df : List Candle} {r : ℚ} {w mm : Nat}
    {maxs : List Nat} {zs : List SupplyDemandZone}
    (h : find_supply_zones df maxs r w mm = Except.ok zs) (z : SupplyDemandZone) :
    z ∈ zs ↔ ∃ x ∈ maxs, extremumGuardPass df.length w x ∧ x < df.length ∧
      supplyAccept df r w mm x ∧ z = mkSupplyZone df w x := by
  unfold find_supply_zones at h
  rw [collectZones_char _ _ _ h z]
  exact exists_congr fun x => and_congr_right fun _ => supply_zone_for_index_eq_some

theorem detect_ok_decomp {df : List Candle} {r : ℚ} {w mm : Nat} {flag : Bool}
    {s d : List SupplyDemandZone}
    (h : detect_supply_demand_zones df r w mm flag = Except.ok (s, d)) :
    ∃ mins maxs sz dz,
      find_local_extrema df w = Except.ok (mins, maxs) ∧
      find_supply_zones df maxs r w mm = Except.ok sz ∧
      find_demand_zones df mins r w mm = Except.ok dz ∧
      s = sz ++ (if flag then find_supply_continuation_zones df mins maxs r mm else []) ∧
      d = dz ++ (if flag then find_demand_continuation_zones df mins maxs r mm else []) := by
  unfold detect_supply_demand_zones at h
  split at h
  · exact absurd h (by simp)
  · next mins maxs hex =>
    split at h
    · exact absurd h (by simp)
    · next sz hsz =>
      split at h
      · exact absurd h (by simp)
      · next dz hdz =>
        refine ⟨mins, maxs, sz, dz, hex, hsz, hdz, ?_⟩
        cases flag with
        | true =>
          rw [if_pos rfl] at h
          simp only [Except.ok.injEq, Prod.mk.injEq] at h
          simp [h.1, h.2]
        | false =>
          rw [if_neg (by simp)] at h
          simp only [Except.ok.injEq, Prod.mk.injEq] at h
          simp [h.1, h.2]

theorem find_demand_zones_not_cont {df : List Candle} {r : ℚ} {w mm : Nat}
    {mins : List Nat} {zs : List SupplyDemandZone}
    (h : find_demand_zones df mins r w mm = Except.ok zs) :
    ∀ z ∈ zs, z.is_continuation_zone = false := by
  intro z hz
  rcases (find_demand_zones_mem h z).mp hz with ⟨m, -, -, -, -, hzz⟩
  rw [hzz]
  rfl

theorem find_supply_zones_not_cont {df : List Candle} {r : ℚ} {w mm : Nat}
    {maxs : List Nat} {zs : List SupplyDemandZone}
    (h : find_supply_zones df maxs r w mm = Except.ok zs) :
    ∀ z ∈ zs, z.is_continuation_zone = false := by
  intro z hz
  rcases (find_supply_zones_mem h z).mp hz with ⟨x, -, -, -, -, hzz⟩
  rw [hzz]
  rfl

theorem find_demand_continuation_zones_cont {df : List Candle} {r : ℚ}
    {mm : Nat} {mins maxs : List Nat} :
    ∀ z ∈ find_demand_continuation_zones df mins maxs r mm,
      z.is_continuation_zone = true := by
  intro z hz
  rcases mem_find_demand_continuation_zones.mp hz with ⟨mi, -, mx, -, i, -, -, hzz⟩
  rw [hzz]
  rfl

theorem find_supply_continuation_zones_cont {df : List Candle} {r : ℚ}
    {mm : Nat} {mins maxs : List Nat} :
    ∀ z ∈ find_supply_continuation_zones df mins maxs r mm,
      z.is_continuation_zone = true := by
  intro z hz
  rcases mem_find_supply_continuation_zones.mp hz with ⟨mx, -, mi, -, i, -, -, hzz⟩
  rw [hzz]
  rfl

theorem demand_zone_for_index_skip {df : List Candle} {r : ℚ} {w mm m : Nat}
    (h : (m : Int) < (w : Int) ∨ (m : Int) > (df.length : Int) - (w : Int)) :
    demand_zone_for_index df r w mm m = Except.ok none := by
  unfold demand_zone_for_index
  rw [if_pos h]

theorem supply_zone_for_index_skip {df : List Candle} {r : ℚ} {w mm x : Nat}
    (h : (x : Int) < (w : Int) ∨ (x : Int) > (df.length : Int) - (w : Int)) :
    supply_zone_for_index df r w mm x = Except.ok none := by
  unfold supply_zone_for_index
  rw [if_pos h]

deriving instance DecidableEq for Except

/-! ## Concrete candle sequences exercising the claims -/

/-- Seven candles: a strictly rising staircase of closes (2, 9, 12) over
the base window of the local minimum at index 3, followed by no breach of
the base low. -/
def staircaseDf : List Candle :=
  [⟨10, 20, 9, 10⟩, ⟨9, 20, 8, 9⟩, ⟨9, 20, 8, 9⟩, ⟨2, 20, 1, 2⟩,
   ⟨8, 20, 8, 9⟩, ⟨9, 20, 8, 12⟩, ⟨12, 20, 9, 13⟩]

/-- Four candles whose lows (5, 4, 1, 3) put a local minimum exactly at
index `len - extrema_window = 2` for window 2. -/
def crashDf : List Candle :=
  [⟨6, 9, 5, 6⟩, ⟨5, 9, 4, 5⟩, ⟨2, 9, 1, 2⟩, ⟨4, 9, 3, 4⟩]

/-- Four candles whose highs (1, 2, 9, 3) put a local maximum exactly at
index `len - extrema_window = 2` for window 2. -/
def boundaryMaxDf : List Candle :=
  [⟨1, 1, 1, 1⟩, ⟨2, 2, 1, 2⟩, ⟨9, 9, 8, 9⟩, ⟨3, 3, 2, 3⟩]

/-- Eleven candles: ten wide-bodied candles followed by a single perfect
doji (open = close); only the last candle has the ten-candle lookback
talib needs, and it is flagged. -/
def singleDojiWindow : List Candle :=
  List.replicate 10 ⟨1, 10, 0, 9⟩ ++ [⟨5, 6, 4, 5⟩]

/-- A base candle followed by one strong candle that closes below the
base close: the scan counts it and then stops. -/
def momentumDf : List Candle := [⟨8, 8, 8, 8⟩, ⟨10, 10, 4, 5⟩]

/-- Seven candles with local maxima at 1 and 3 and a local minimum at 5
(window 1); the candle at index 2, before the nearest preceding maximum 3,
qualifies as a demand continuation base. -/
def legDf : List Candle :=
  [⟨3, 5, 1, 3⟩, ⟨2, 8, 1, 2⟩, ⟨2, 5, 1, 5⟩, ⟨4, 9, 3, 4⟩,
   ⟨3, 5, 3, 3⟩, ⟨3, 4, 2, 2⟩, ⟨3, 4, 3, 3⟩]

/-! ## Claims -/

/-- C1: the staircase qualifier never rejects anything.  On `staircaseDf`
the base window of the accepted demand candidate (indices 3..5) has
strictly increasing closes (2 < 9 < 12), the ratio test passes, and the
zone nevertheless appears in the returned demand zones: the first entry of
the pandas `close > close.shift(1)` comparison is a missing-value
comparison and hence `False`, so `.all()` can never hold. -/
theorem c1_staircase_base_not_rejected :
    ((staircaseDf.drop 3).take 3).map Candle.close = [2, 9, 12] ∧
    (2 : ℚ) < 9 ∧ (9 : ℚ) < 12 ∧
    detect_supply_demand_zones staircaseDf 1 2 0 false =
      Except.ok ([], [⟨.DEMAND_TYPE, 3, 5, 1, 2, false⟩]) :=
  of_decide_eq_true (by with_unfolding_all rfl)

/-- C2: `detect_supply_demand_zones` can raise.  On `crashDf` with
`extrema_window = 2` the local minimum sits at index 2 = len - 2, the
off-by-one guard `min_index > len(df) - extrema_window` lets it through,
and `close.iloc[min_index + extrema_window]` reads position 4 of a
4-element frame: an `IndexError`, modelled as `Except.error`. -/
theorem c2_index_error_on_boundary_minimum :
    find_local_extrema crashDf 2 = Except.ok ([2], []) ∧
    detect_supply_demand_zones crashDf (3 / 2) 2 2 false = Except.error () :=
  of_decide_eq_true (by with_unfolding_all rfl)

/-- C3: a returned zone can carry an out-of-range `end_index`.  On
`boundaryMaxDf` (length 4) the supply builder accepts the maximum at index
2 = len - 2 and stores `end_index = 2 + 2 = 4`, which is not a valid index
into the sequence. -/
theorem c3_end_index_out_of_range :
    detect_supply_demand_zones boundaryMaxDf (3 / 2) 2 0 false =
      Except.ok ([⟨.SUPPLY_TYPE, 2, 4, 9, 9, false⟩], []) ∧
    boundaryMaxDf.length = 4 :=
  of_decide_eq_true (by with_unfolding_all rfl)

/-- C4: a base window in which exactly one candle matches the doji pattern
is rejected by the doji check: `CDLDOJI` reports 100 (not 1) per flagged
candle, so `doji_count > 1` already fires with a single doji. -/
theorem c4_single_doji_rejected :
    has_doji_pattern singleDojiWindow = true ∧
    (CDLDOJI singleDojiWindow).count 100 = 1 :=
  of_decide_eq_true (by with_unfolding_all rfl)

/-- C7 (counterexample): the candle that triggers the stop condition does
contribute to the momentum count.  On `momentumDf` the single scanned
candle is strong and closes below the base close: the claim's
count-before-stop is 0, yet the check passes with threshold 1. -/
theorem c7_stop_candle_counted :
    has_several_momentum_candles momentumDf 0 .DEMAND_TYPE 1 = true ∧
    momentum_count_before_stop (candleAt momentumDf 0).close .DEMAND_TYPE
      (momentumDf.drop 1) = 0 :=
  of_decide_eq_true (by with_unfolding_all rfl)

/-- C7 (amended): the momentum check accepts exactly when the number of
strong candles among the scanned prefix — up to and including the candle
that triggers the stop condition — reaches `min_momentum_candles`. -/
theorem c7_momentum_count_includes_stop_candle (df : List Candle) (s : Nat)
    (zone_type : SupplyDemandZoneType) (mm : Nat) :
    has_several_momentum_candles df s zone_type mm =
      decide (mm ≤ momentum_count_through_stop (candleAt df s).close zone_type
        (df.drop (s + 1))) := by
  unfold has_several_momentum_candles
  rw [momentumScan_eq_count_through_stop]

/-- C8: the demand continuation detector does not scan the leg from the
immediately preceding maximum.  On `legDf` the extrema are maxima [1, 3]
and minimum [5]; the code pairs the minimum 5 with the earliest maximum 1
(the last element of the reversed-then-filtered maxima list) and returns a
continuation zone at index 2, which lies before the immediately preceding
maximum 3 and hence outside the leg 3..5 the claim describes. -/
theorem c8_demand_continuation_scans_from_earliest_maximum :
    find_local_extrema legDf 1 = Except.ok ([5], [1, 3]) ∧
    find_demand_continuation_zones legDf [5] [1, 3] (1 / 2) 0 =
      [⟨.DEMAND_TYPE, 2, 2, 1, 5, true⟩] :=
  of_decide_eq_true (by with_unfolding_all rfl)

/-- Three candles with lows (3, 1, 2): shorter than `2*2+1`, yet index 1
is a clip-mode local minimum for window 2. -/
def shortDf : List Candle := [⟨3, 3, 3, 3⟩, ⟨1, 3, 1, 1⟩, ⟨2, 3, 2, 2⟩]

/-- Five candles carrying a window-5 local maximum at index 1 and local
minimum at index 3; the candle at index 2 qualifies as a supply
continuation base even though the window exceeds the length. -/
def wideWindowDf : List Candle :=
  [⟨4, 5, 3, 4⟩, ⟨5, 9, 3, 5⟩, ⟨4, 4, 2, 2⟩, ⟨2, 4, 1, 4⟩, ⟨4, 4, 3, 4⟩]

/-- C5 (counterexample): with the default clip boundary mode of
`argrelextrema`, a sequence shorter than `2w+1` can still have local
extrema (on `shortDf`, index 1), and with `extrema_window ≥ len` the zone
lists need not both be empty once continuation detection is enabled: on
`wideWindowDf` with window 5 a supply continuation zone is returned. -/
theorem c5_short_sequence_extrema_not_empty :
    shortDf.length = 3 ∧ 3 < 2 * 2 + 1 ∧
    find_local_extrema shortDf 2 = Except.ok ([1], []) ∧
    ¬ (find_local_extrema shortDf 2 = Except.ok ([], [])) ∧
    wideWindowDf.length ≤ 5 ∧
    detect_supply_demand_zones wideWindowDf (1 / 2) 5 0 true =
      Except.ok ([⟨.SUPPLY_TYPE, 2, 2, 4, 2, true⟩], []) :=
  of_decide_eq_true (by with_unfolding_all rfl)

/-- C5 (amended): when the extrema window is at least the sequence length
(and at least 1, as the configuration requires), every extremum index is
caught by the builders' `continue` guard, so both extremum-anchored zone
lists are empty and, with continuation detection disabled, the detection
pass returns two empty zone lists; the extrema lists themselves (and the
continuation zone lists) can still be nonempty because `argrelextrema`
clips out-of-range neighbour indices to the array ends. -/
theorem c5_window_at_least_length_no_zones (df : List Candle) (r : ℚ)
    (w mm : Nat) (h1 : 1 ≤ w) (hlen : df.length ≤ w) :
    detect_supply_demand_zones df r w mm false = Except.ok ([], []) := by
  have hex : find_local_extrema df w =
      Except.ok (argrelextrema_less (df.map Candle.low) w,
        argrelextrema_greater (df.map Candle.high) w) := by
    unfold find_local_extrema
    rw [if_neg (by omega)]
  have hsup : find_supply_zones df (argrelextrema_greater (df.map Candle.high) w)
      r w mm = Except.ok [] := by
    refine collectZones_all_skip _ _ fun x hx => supply_zone_for_index_skip (Or.inl ?_)
    have hxl := mem_argrelextrema_greater_lt hx
    rw [List.length_map] at hxl
    omega
  have hdem : find_demand_zones df (argrelextrema_less (df.map Candle.low) w)
      r w mm = Except.ok [] := by
    refine collectZones_all_skip _ _ fun m hm => demand_zone_for_index_skip (Or.inl ?_)
    have hml := mem_argrelextrema_less_lt hm
    rw [List.length_map] at hml
    omega
  unfold find_supply_zones at hsup
  unfold find_demand_zones at hdem
  unfold detect_supply_demand_zones find_supply_zones find_demand_zones
  simp only [hex, hsup, hdem]
  rfl

/-- C5 (amended, witness): the amended statement at `wideWindowDf` with
window 5 ≥ length 5. -/
theorem c5_window_at_least_length_no_zones_witness :
    detect_supply_demand_zones wideWindowDf (1 / 2) 5 0 false = Except.ok ([], []) :=
  c5_window_at_least_length_no_zones wideWindowDf (1 / 2) 5 0 (by decide) (by decide)

/-- C9: for well-formed candles every returned zone (extremum-anchored or
continuation, supply or demand) has consistent boundaries: a DEMAND zone
has `distal_level ≤ proxima_level`, a SUPPLY zone has
`distal_level ≥ proxima_level`. -/
theorem c9_boundary_consistency (df : List Candle) (r : ℚ) (w mm : Nat)
    (flag : Bool) (s d : List SupplyDemandZone)
    (hwf : ∀ c ∈ df, wfCandle c)
    (h : detect_supply_demand_zones df r w mm flag = Except.ok (s, d)) :
    ∀ z, z ∈ s ∨ z ∈ d →
      (z.zone_type = .DEMAND_TYPE → z.distal_level ≤ z.proxima_level) ∧
      (z.zone_type = .SUPPLY_TYPE → z.proxima_level ≤ z.distal_level) := by
  obtain ⟨mins, maxs, sz, dz, hex, hsz, hdz, hs, hd⟩ := detect_ok_decomp h
  intro z hz
  have key : (∃ m, z = mkDemandZone df w m) ∨ (∃ x, z = mkSupplyZone df w x) ∨
      (∃ i, z = mkDemandContZone df i) ∨ (∃ i, z = mkSupplyContZone df i) := by
    rcases hz with hzs | hzd
    · rw [hs] at hzs
      rcases List.mem_append.mp hzs with hmem | hmem
      · rcases (find_supply_zones_mem hsz z).mp hmem with ⟨x, -, -, -, -, hzz⟩
        exact Or.inr (Or.inl ⟨x, hzz⟩)
      · cases flag with
        | false => simp at hmem
        | true =>
          simp only [if_true] at hmem
          rcases mem_find_supply_continuation_zones.mp hmem with
            ⟨mx, -, mi, -, i, -, -, hzz⟩
          exact Or.inr (Or.inr (Or.inr ⟨i, hzz⟩))
    · rw [hd] at hzd
      rcases List.mem_append.mp hzd with hmem | hmem
      · rcases (find_demand_zones_mem hdz z).mp hmem with ⟨m, -, -, -, -, hzz⟩
        exact Or.inl ⟨m, hzz⟩
      · cases flag with
        | false => simp at hmem
        | true =>
          simp only [if_true] at hmem
          rcases mem_find_demand_continuation_zones.mp hmem with
            ⟨mi, -, mx, -, i, -, -, hzz⟩
          exact Or.inr (Or.inr (Or.inl ⟨i, hzz⟩))
  rcases key with ⟨m, rfl⟩ | ⟨x, rfl⟩ | ⟨i, rfl⟩ | ⟨i, rfl⟩
  · have hw := wfCandle_candleAt hwf m
    exact ⟨fun _ => hw.1.trans min_le_max, fun habs => SupplyDemandZoneType.noConfusion habs⟩
  · have hw := wfCandle_candleAt hwf x
    exact ⟨fun habs => SupplyDemandZoneType.noConfusion habs, fun _ => min_le_max.trans hw.2⟩
  · have hw := wfCandle_candleAt hwf i
    exact ⟨fun _ => hw.1.trans min_le_max, fun habs => SupplyDemandZoneType.noConfusion habs⟩
  · have hw := wfCandle_candleAt hwf i
    exact ⟨fun habs => SupplyDemandZoneType.noConfusion habs, fun _ => min_le_max.trans hw.2⟩

/-- The demand zone the staircase example produces (also exercised by the
C9 witness). -/
def staircaseZone : SupplyDemandZone := ⟨.DEMAND_TYPE, 3, 5, 1, 2, false⟩

/-- C9 (witness): the boundary-consistency statement applied to the
concrete detection pass over `staircaseDf`. -/
theorem c9_boundary_consistency_witness :
    (staircaseZone.zone_type = .DEMAND_TYPE →
      staircaseZone.distal_level ≤ staircaseZone.proxima_level) ∧
    (staircaseZone.zone_type = .SUPPLY_TYPE →
      staircaseZone.proxima_level ≤ staircaseZone.distal_level) :=
  c9_boundary_consistency staircaseDf 1 2 0 false [] [staircaseZone]
    (of_decide_eq_true (by with_unfolding_all rfl))
    (of_decide_eq_true (by with_unfolding_all rfl))
    staircaseZone (Or.inr (List.mem_singleton.mpr rfl))

theorem detect_continuation_filter {df : List Candle} {r : ℚ} {w mm : Nat}
    {flag : Bool} {s d : List SupplyDemandZone} {mins maxs : List Nat}
    (h : detect_supply_demand_zones df r w mm flag = Except.ok (s, d))
    (hex : find_local_extrema df w = Except.ok (mins, maxs)) :
    s.filter (fun z => z.is_continuation_zone) =
      (if flag then supplyContinuationSpec df mins maxs r else []) ∧
    d.filter (fun z => z.is_continuation_zone) =
      (if flag then demandContinuationSpec df mins maxs r else []) := by
  obtain ⟨mins2, maxs2, sz, dz, hex2, hsz, hdz, hs, hd⟩ := detect_ok_decomp h
  rw [hex] at hex2
  simp only [Except.ok.injEq, Prod.mk.injEq] at hex2
  obtain ⟨hm1, hm2⟩ := hex2
  subst hm1
  subst hm2
  subst hs
  subst hd
  rw [List.filter_append, List.filter_append]
  have hsz0 : sz.filter (fun z => z.is_continuation_zone) = [] :=
    List.filter_eq_nil_iff.mpr fun z hz => by
      rw [find_supply_zones_not_cont hsz z hz]
      simp
  have hdz0 : dz.filter (fun z => z.is_continuation_zone) = [] :=
    List.filter_eq_nil_iff.mpr fun z hz => by
      rw [find_demand_zones_not_cont hdz z hz]
      simp
  cases flag with
  | false =>
    simp only [if_false, Bool.false_eq_true]
    rw [hsz0, hdz0]
    simp
  | true =>
    simp only [if_true]
    rw [hsz0, hdz0, List.nil_append, List.nil_append,
      List.filter_eq_self.mpr (fun z hz => find_supply_continuation_zones_cont z hz),
      List.filter_eq_self.mpr (fun z hz => find_demand_continuation_zones_cont z hz),
      find_supply_continuation_zones_eq_spec, find_demand_continuation_zones_eq_spec]
    exact ⟨rfl, rfl⟩

/-- C10: continuation zones are exempt from the Zone Qualifier.  For any
two momentum thresholds the continuation parts of the returned zone lists
coincide, and each equals the spec-side list whose inclusion test is
exactly the counter-trend test, the two surrounding-rally ratio tests and
the distal-violation filter; the momentum, staircase and doji checks never
touch a continuation candidate. -/
theorem c10_continuation_zones_qualifier_exempt (df : List Candle) (r : ℚ)
    (w mm1 mm2 : Nat) (flag : Bool) (s1 d1 s2 d2 : List SupplyDemandZone)
    (mins maxs : List Nat)
    (h1 : detect_supply_demand_zones df r w mm1 flag = Except.ok (s1, d1))
    (h2 : detect_supply_demand_zones df r w mm2 flag = Except.ok (s2, d2))
    (hex : find_local_extrema df w = Except.ok (mins, maxs)) :
    s1.filter (fun z => z.is_continuation_zone) =
      (if flag then supplyContinuationSpec df mins maxs r else []) ∧
    d1.filter (fun z => z.is_continuation_zone) =
      (if flag then demandContinuationSpec df mins maxs r else []) ∧
    s1.filter (fun z => z.is_continuation_zone) =
      s2.filter (fun z => z.is_continuation_zone) ∧
    d1.filter (fun z => z.is_continuation_zone) =
      d2.filter (fun z => z.is_continuation_zone) := by
  obtain ⟨ha1, hb1⟩ := detect_continuation_filter h1 hex
  obtain ⟨ha2, hb2⟩ := detect_continuation_filter h2 hex
  exact ⟨ha1, hb1, ha1.trans ha2.symm, hb1.trans hb2.symm⟩

/-- The extremum-anchored demand zone of the C10 witness run. -/
def legExtremumZone : SupplyDemandZone := ⟨.DEMAND_TYPE, 5, 6, 2, 3, false⟩

/-- The continuation zone of the C10 witness run. -/
def legContZone : SupplyDemandZone := ⟨.DEMAND_TYPE, 2, 2, 1, 5, true⟩

/-- C10 (witness): the exemption statement applied to `legDf` with
momentum thresholds 0 and 7: the threshold-7 run drops the
extremum-anchored zone but keeps the identical continuation zone. -/
theorem c10_continuation_zones_qualifier_exempt_witness :
    [legExtremumZone, legContZone].filter (fun z => z.is_continuation_zone) =
      (if true then demandContinuationSpec legDf [5] [1, 3] (1 / 2) else []) ∧
    [legExtremumZone, legContZone].filter (fun z => z.is_continuation_zone) =
      [legContZone].filter (fun z => z.is_continuation_zone) := by
  have h := c10_continuation_zones_qualifier_exempt legDf (1 / 2) 1 0 7 true
    [] [legExtremumZone, legContZone] [] [legContZone] [5] [1, 3]
    (of_decide_eq_true (by with_unfolding_all rfl))
    (of_decide_eq_true (by with_unfolding_all rfl))
    (of_decide_eq_true (by with_unfolding_all rfl))
  exact ⟨h.2.1, h.2.2.2⟩

/-- Three candles with a malformed middle candle (close 2 below low 4):
the demand base length is negative. -/
def malformedDf : List Candle := [⟨6, 6, 5, 6⟩, ⟨3, 6, 4, 2⟩, ⟨6, 6, 5, 0⟩]

/-- The demand zone `malformedDf` yields under ratio 2 (and not under
ratio 1). -/
def malformedZone : SupplyDemandZone := ⟨.DEMAND_TYPE, 1, 2, 4, 3, false⟩

/-- C6 (counterexample): with a malformed candle the base length is
negative and the ratio guard flips direction: the run with the larger
ratio 2 returns a demand zone that the run with the smaller ratio 1 does
not, so the result set under the larger ratio is not a subset of the one
under the smaller ratio. -/
theorem c6_monotonicity_fails_on_malformed_candle :
    detect_supply_demand_zones malformedDf 2 1 0 false =
      Except.ok ([], [malformedZone]) ∧
    detect_supply_demand_zones malformedDf 1 1 0 false = Except.ok ([], []) ∧
    malformedZone ∉ ([] : List SupplyDemandZone) :=
  of_decide_eq_true (by with_unfolding_all rfl)

theorem demandAccept_mono {df : List Candle} {r1 r2 : ℚ} {w mm m : Nat}
    (hord : ∀ c ∈ df, orderedCandle c) (hr : r1 ≤ r2)
    (h : demandAccept df r2 w mm m) : demandAccept df r1 w mm m := by
  obtain ⟨hrat, h2, h3, h4⟩ := h
  refine ⟨lt_of_le_of_lt ?_ hrat, h2, h3, h4⟩
  have hb : 0 ≤ (candleAt df m).close - (candleAt df m).low :=
    sub_nonneg.mpr (orderedCandle_candleAt hord m).1
  exact mul_le_mul_of_nonneg_left hr hb

theorem supplyAccept_mono {df : List Candle} {r1 r2 : ℚ} {w mm x : Nat}
    (hord : ∀ c ∈ df, orderedCandle c) (hr : r1 ≤ r2)
    (h : supplyAccept df r2 w mm x) : supplyAccept df r1 w mm x := by
  obtain ⟨hrat, h2, h3, h4⟩ := h
  refine ⟨lt_of_le_of_lt ?_ hrat, h2, h3, h4⟩
  have hb : 0 ≤ (candleAt df x).high - (candleAt df x).close :=
    sub_nonneg.mpr (orderedCandle_candleAt hord x).2
  exact mul_le_mul_of_nonneg_left hr hb

theorem demandContAccept_mono {df : List Candle} {r1 r2 : ℚ} {mx mi i : Nat}
    (hord : ∀ c ∈ df, orderedCandle c) (hr : r1 ≤ r2)
    (h : demandContAccept df r2 mx mi i) : demandContAccept df r1 mx mi i := by
  obtain ⟨hc1, hc2, hb1, hb2, hd⟩ := h
  have hord2 := orderedCandle_candleAt hord i
  have hb : 0 ≤ (candleAt df i).high - (candleAt df i).low :=
    sub_nonneg.mpr (hord2.1.trans hord2.2)
  exact ⟨hc1, hc2, lt_of_le_of_lt (mul_le_mul_of_nonneg_left hr hb) hb1,
    lt_of_le_of_lt (mul_le_mul_of_nonneg_left hr hb) hb2, hd⟩

theorem supplyContAccept_mono {df : List Candle} {r1 r2 : ℚ} {mx mi i : Nat}
    (hord : ∀ c ∈ df, orderedCandle c) (hr : r1 ≤ r2)
    (h : supplyContAccept df r2 mx mi i) : supplyContAccept df r1 mx mi i := by
  obtain ⟨hc1, hc2, hb1, hb2, hd⟩ := h
  have hord2 := orderedCandle_candleAt hord i
  have hb : 0 ≤ (candleAt df i).high - (candleAt df i).low :=
    sub_nonneg.mpr (hord2.1.trans hord2.2)
  exact ⟨hc1, hc2, lt_of_le_of_lt (mul_le_mul_of_nonneg_left hr hb) hb1,
    lt_of_le_of_lt (mul_le_mul_of_nonneg_left hr hb) hb2, hd⟩

theorem detect_ratio_gate {df : List Candle} {r : ℚ} {w mm : Nat} {flag : Bool}
    {s d : List SupplyDemandZone}
    (h : detect_supply_demand_zones df r w mm flag = Except.ok (s, d)) :
    (∀ z ∈ s, z.is_continuation_zone = false →
      (candleAt df z.start_index).close - (candleAt df (z.start_index - w)).close >
        ((candleAt df z.start_index).high - (candleAt df z.start_index).close) * r) ∧
    (∀ z ∈ d, z.is_continuation_zone = false →
      (candleAt df (z.start_index + w)).close - (candleAt df z.start_index).close >
        ((candleAt df z.start_index).close - (candleAt df z.start_index).low) * r) := by
  obtain ⟨mins, maxs, sz, dz, hex, hsz, hdz, hs, hd⟩ := detect_ok_decomp h
  constructor
  · intro z hz hnc
    rw [hs] at hz
    rcases List.mem_append.mp hz with hmem | hmem
    · rcases (find_supply_zones_mem hsz z).mp hmem with ⟨x, -, -, -, hacc, rfl⟩
      exact hacc.1
    · cases flag with
      | false => simp at hmem
      | true =>
        simp only [if_true] at hmem
        have hcont := find_supply_continuation_zones_cont z hmem
        rw [hnc] at hcont
        exact Bool.noConfusion hcont
  · intro z hz hnc
    rw [hd] at hz
    rcases List.mem_append.mp hz with hmem | hmem
    · rcases (find_demand_zones_mem hdz z).mp hmem with ⟨m, -, -, -, hacc, rfl⟩
      exact hacc.1
    · cases flag with
      | false => simp at hmem
      | true =>
        simp only [if_true] at hmem
        have hcont := find_demand_continuation_zones_cont z hmem
        rw [hnc] at hcont
        exact Bool.noConfusion hcont

theorem detect_ratio_monotone {df : List Candle} {r1 r2 : ℚ} {w mm : Nat}
    {flag : Bool} {s1 d1 s2 d2 : List SupplyDemandZone}
    (hord : ∀ c ∈ df, orderedCandle c) (hr : r1 ≤ r2)
    (h1 : detect_supply_demand_zones df r1 w mm flag = Except.ok (s1, d1))
    (h2 : detect_supply_demand_zones df r2 w mm flag = Except.ok (s2, d2)) :
    (∀ z ∈ s2, z ∈ s1) ∧ (∀ z ∈ d2, z ∈ d1) := by
  obtain ⟨mins1, maxs1, sz1, dz1, hex1, hsz1, hdz1, hs1, hd1⟩ := detect_ok_decomp h1
  obtain ⟨mins2, maxs2, sz2, dz2, hex2, hsz2, hdz2, hs2, hd2⟩ := detect_ok_decomp h2
  rw [hex1] at hex2
  simp only [Except.ok.injEq, Prod.mk.injEq] at hex2
  obtain ⟨hm, hx⟩ := hex2
  subst hm
  subst hx
  subst hs1
  subst hd1
  subst hs2
  subst hd2
  constructor
  · intro z hz
    rcases List.mem_append.mp hz with hmem | hmem
    · rcases (find_supply_zones_mem hsz2 z).mp hmem with ⟨x, hxm, hg, hlt, hacc, hzz⟩
      exact List.mem_append_left _ ((find_supply_zones_mem hsz1 z).mpr
        ⟨x, hxm, hg, hlt, supplyAccept_mono hord hr hacc, hzz⟩)
    · refine List.mem_append_right _ ?_
      cases flag with
      | false => simp at hmem
      | true =>
        simp only [if_true] at hmem ⊢
        rcases mem_find_supply_continuation_zones.mp hmem with
          ⟨mx, hmx, mi, hsel, i, hi, hacc, hzz⟩
        exact mem_find_supply_continuation_zones.mpr
          ⟨mx, hmx, mi, hsel, i, hi, supplyContAccept_mono hord hr hacc, hzz⟩
  · intro z hz
    rcases List.mem_append.mp hz with hmem | hmem
    · rcases (find_demand_zones_mem hdz2 z).mp hmem with ⟨m, hxm, hg, hlt, hacc, hzz⟩
      exact List.mem_append_left _ ((find_demand_zones_mem hdz1 z).mpr
        ⟨m, hxm, hg, hlt, demandAccept_mono hord hr hacc, hzz⟩)
    · refine List.mem_append_right _ ?_
      cases flag with
      | false => simp at hmem
      | true =>
        simp only [if_true] at hmem ⊢
        rcases mem_find_demand_continuation_zones.mp hmem with
          ⟨mi, hmi, mx, hsel, i, hi, hacc, hzz⟩
        exact mem_find_demand_continuation_zones.mpr
          ⟨mi, hmi, mx, hsel, i, hi, demandContAccept_mono hord hr hacc, hzz⟩

/-- C6 (amended): (1) no extremum-anchored zone in the results has
`rally_length ≤ base_length * min_base_rally_ratio` (with the demand and
supply base/rally definitions of the builders), for every input; and
(2) for every fixed input sequence whose candles satisfy
`low ≤ close ≤ high`, and fixed remaining configuration, the zones
returned under a larger `min_base_rally_ratio` are a subset of the zones
returned under a smaller one. -/
theorem c6_ratio_gate_and_monotonicity :
    (∀ (df : List Candle) (r : ℚ) (w mm : Nat) (flag : Bool)
        (s d : List SupplyDemandZone),
      detect_supply_demand_zones df r w mm flag = Except.ok (s, d) →
      (∀ z ∈ s, z.is_continuation_zone = false →
        (candleAt df z.start_index).close - (candleAt df (z.start_index - w)).close >
          ((candleAt df z.start_index).high - (candleAt df z.start_index).close) * r) ∧
      (∀ z ∈ d, z.is_continuation_zone = false →
        (candleAt df (z.start_index + w)).close - (candleAt df z.start_index).close >
          ((candleAt df z.start_index).close - (candleAt df z.start_index).low) * r)) ∧
    (∀ (df : List Candle) (r1 r2 : ℚ) (w mm : Nat) (flag : Bool)
        (s1 d1 s2 d2 : List SupplyDemandZone),
      (∀ c ∈ df, orderedCandle c) → r1 ≤ r2 →
      detect_supply_demand_zones df r1 w mm flag = Except.ok (s1, d1) →
      detect_supply_demand_zones df r2 w mm flag = Except.ok (s2, d2) →
      (∀ z ∈ s2, z ∈ s1) ∧ (∀ z ∈ d2, z ∈ d1)) :=
  ⟨fun _ _ _ _ _ _ _ h => detect_ratio_gate h,
   fun _ _ _ _ _ _ _ _ _ _ hord hr h1 h2 => detect_ratio_monotone hord hr h1 h2⟩

/-- C6 (amended, witness): the ratio gate and the monotonicity statement
applied to `staircaseDf` with ratios 1 and 2, at the concrete returned
zone. -/
theorem c6_ratio_gate_and_monotonicity_witness :
    ((candleAt staircaseDf (staircaseZone.start_index + 2)).close -
        (candleAt staircaseDf staircaseZone.start_index).close >
      ((candleAt staircaseDf staircaseZone.start_index).close -
        (candleAt staircaseDf staircaseZone.start_index).low) * 1) ∧
    staircaseZone ∈ [staircaseZone] := by
  have hd1 : detect_supply_demand_zones staircaseDf 1 2 0 false =
      Except.ok ([], [staircaseZone]) :=
    of_decide_eq_true (by with_unfolding_all rfl)
  have hd2 : detect_supply_demand_zones staircaseDf 2 2 0 false =
      Except.ok ([], [staircaseZone]) :=
    of_decide_eq_true (by with_unfolding_all rfl)
  constructor
  · exact (c6_ratio_gate_and_monotonicity.1 staircaseDf 1 2 0 false []
      [staircaseZone] hd1).2 staircaseZone (List.mem_singleton.mpr rfl) rfl
  · exact (c6_ratio_gate_and_monotonicity.2 staircaseDf 1 2 2 0 false []
      [staircaseZone] [] [staircaseZone]
      (of_decide_eq_true (by with_unfolding_all rfl))
      (of_decide_eq_true (by with_unfolding_all rfl)) hd1 hd2).2
      staircaseZone (List.mem_singleton.mpr rfl)
